import Mathlib

/-!
Shallow embedding of the Spotify credential-manager subsystem
(`backend/app/services/token_manager.py` and
`backend/app/services/spotify_service.py`).

Time is modelled as a rational number of seconds since the epoch.
Redis is modelled as a `World` record holding the cached token hash
(`spotify:access_token`); the distributed lock and the upstream OAuth
endpoint are modelled by environments that give the outcome of each
external operation, and every function additionally returns the list of
externally visible operations it performed, in order.
-/

attribute [local semireducible] Rat.add Rat.sub Rat.mul Rat.inv

instance {α β : Type} [DecidableEq α] [DecidableEq β] : DecidableEq (Except α β)
  | Except.error a, Except.error b =>
    if h : a = b then isTrue (by rw [h])
    else isFalse (by intro hh; injection hh; contradiction)
  | Except.error _, Except.ok _ => isFalse (by intro h; cases h)
  | Except.ok _, Except.error _ => isFalse (by intro h; cases h)
  | Except.ok a, Except.ok b =>
    if h : a = b then isTrue (by rw [h])
    else isFalse (by intro hh; injection hh; contradiction)

/-- The configuration flags from `settings` that the token code consults. -/
structure Settings where
  refreshTokenConfigured : Bool

/-- One answer of the upstream token endpoint to a refresh POST: either the
HTTP client raised (network error / timeout), or a response with a status
code and the JSON fields the code reads. -/
inductive UpstreamResult where
  | netExc (msg : String)
  | resp (status : Nat) (accessToken : Option String) (expiresIn : Option ℚ)
      (scope : Option String)

/-- The access token carried by an upstream answer, if any. -/
def upTokOf : UpstreamResult → Option String
  | UpstreamResult.netExc _ => none
  | UpstreamResult.resp _ tok _ _ => tok

/-- Externally visible operations of the token manager, in program order. -/
inductive MOp where
  | redisRead
  | lockAttempt (ok : Bool)
  | sleep (d : ℚ)
  | httpRefresh
  | cacheWrite (token : String) (ttl : ℤ)
  | cacheDelete
  | lockRelease
  | metrics (name : String)
  deriving DecidableEq, Repr

/-- The shared store: whether the Redis connection is up, and the contents of
the `spotify:access_token` hash (`[]` models an absent/empty hash, which is
falsy in Python). -/
structure World where
  redisAvailable : Bool
  cache : List (String × String)
  deriving DecidableEq, Repr

/-- Environment of one token-manager entry point: the current time, the
outcome of each successive `SET NX` lock attempt, an optional concurrent
cache write by another process (observed at the double-check read), and the
upstream's answers for the primary and the degraded-fallback refresh call
sites. -/
structure TMEnv where
  now : ℚ
  lock : ℕ → Bool
  raceWrite : Option (List (String × String))
  upPrimary : UpstreamResult
  upFallback : UpstreamResult

/-- `REFRESH_THRESHOLD_SECONDS = 300` in `SpotifyTokenManager`. -/
def REFRESH_THRESHOLD_SECONDS : ℚ := 300

/-- `LOCK_TIMEOUT_SECONDS = 30` in `SpotifyTokenManager`. -/
def LOCK_TIMEOUT_SECONDS : ℕ := 30

/-- `REDIS_TTL_BUFFER = 60` in `SpotifyTokenManager`. -/
def REDIS_TTL_BUFFER : ℚ := 60

/-- Python dictionary `get` over the cached hash. -/
def dictGet (rec : List (String × String)) (k : String) : Option String :=
  (rec.find? (fun p => p.1 == k)).map (fun p => p.2)

/-- Python `int()` applied to a float: truncation toward zero. -/
def pyInt (q : ℚ) : ℤ := if 0 ≤ q then ⌊q⌋ else ⌈q⌉

/-- Value of a list of decimal digit characters. -/
def natOfDigits (l : List Char) : ℕ :=
  l.foldl (fun a c => a * 10 + (c.toNat - 48)) 0

/-- Whether every character of the list is a decimal digit. -/
def allDigits (l : List Char) : Bool := l.all (fun c => c.isDigit)

/-- Strip leading and trailing whitespace, as Python `float()` does before
parsing. -/
def trimChars (l : List Char) : List Char :=
  ((l.dropWhile Char.isWhitespace).reverse.dropWhile Char.isWhitespace).reverse

/-- Python `float()` on a string, restricted to plain decimal literals
(optional sign, integer part, optional fractional part, surrounding
whitespace); every other string is unparseable and models the
`ValueError` branch. -/
def pyFloat (s : String) : Option ℚ :=
  let t := trimChars s.toList
  let signed : Bool × List Char :=
    match t with
    | '-' :: r => (true, r)
    | '+' :: r => (false, r)
    | r => (false, r)
  let ip := signed.2.takeWhile (fun c => c ≠ '.')
  let rest := signed.2.dropWhile (fun c => c ≠ '.')
  match rest with
  | [] =>
    if allDigits ip ∧ ip ≠ [] then
      some (if signed.1 then -(natOfDigits ip : ℚ) else (natOfDigits ip : ℚ))
    else none
  | _ :: fp =>
    if allDigits ip ∧ allDigits fp ∧ (ip ≠ [] ∨ fp ≠ []) then
      let v : ℚ := (natOfDigits ip : ℚ) + (natOfDigits fp : ℚ) / ((10 : ℚ) ^ fp.length)
      some (if signed.1 then -v else v)
    else none

/-- Rendering used for `str(expires_at)` when the manager writes the hash. -/
def floatStr (q : ℚ) : String :=
  if q.den = 1 then toString q.num ++ ".0"
  else toString q.num ++ "/" ++ toString q.den

/-- `SpotifyTokenManager._is_token_still_valid`: the cached record is usable
iff it is non-empty, carries a truthy `expires_at`, that value parses as a
float, and `expires_at - now > REFRESH_THRESHOLD_SECONDS`; every failure
mode returns `False`. -/
def is_token_still_valid (tokenData : List (String × String)) (now : ℚ) : Bool :=
  match dictGet tokenData "expires_at" with
  | none => false
  | some s =>
    if s = "" then false
    else
      match pyFloat s with
      | none => false
      | some expiresAt => decide (expiresAt - now > REFRESH_THRESHOLD_SECONDS)

/-- `SpotifyTokenManager._cache_token_data`: build the hash fields, compute
`ttl = int(expires_at - now - REDIS_TTL_BUFFER)`, and store the record with
that TTL only when the TTL is strictly positive. -/
def cache_token_data (token : String) (expiresAt : ℚ) (scope : String)
    (now : ℚ) (w : World) : World × List MOp :=
  if w.redisAvailable then
    let fields := [("access_token", token), ("expires_at", floatStr expiresAt),
      ("scope", scope), ("cached_at", floatStr now)]
    let ttl := pyInt (expiresAt - now - REDIS_TTL_BUFFER)
    if 0 < ttl then ({ w with cache := fields }, [MOp.cacheWrite token ttl])
    else (w, [])
  else (w, [])

/-- `SpotifyTokenManager._request_token_refresh`: raise if the refresh token
is unconfigured, otherwise make exactly one HTTP POST; raise on a network
error, on any non-200 status, and on a 200 body without an access token. -/
def request_token_refresh (cfg : Settings) (u : UpstreamResult) :
    Except String (String × Option ℚ × Option String) × List MOp :=
  if cfg.refreshTokenConfigured then
    match u with
    | UpstreamResult.netExc m => (Except.error m, [MOp.httpRefresh])
    | UpstreamResult.resp status tok expIn scope =>
      if status ≠ 200 then
        (Except.error ("Token refresh failed: Status " ++ toString status),
          [MOp.httpRefresh])
      else
        match tok with
        | none => (Except.error "No access token in refresh response", [MOp.httpRefresh])
        | some t => (Except.ok (t, expIn, scope), [MOp.httpRefresh])
  else (Except.error "SPOTIFY_SERVICE_REFRESH_TOKEN not configured", [])

/-- `SpotifyTokenManager._direct_token_refresh`: one uncached, unlocked
refresh call. -/
def direct_token_refresh (cfg : Settings) (u : UpstreamResult) :
    Except String String × List MOp :=
  match request_token_refresh cfg u with
  | (Except.ok (t, _, _), ops) => (Except.ok t, ops)
  | (Except.error e, ops) => (Except.error e, ops)

/-- `SpotifyTokenManager._refresh_and_cache_token`: refresh upstream, compute
`expires_at = now + expires_in` (default 3600), cache via
`_cache_token_data`, and return the token; failures update the failure
metric and re-raise. -/
def refresh_and_cache_token (cfg : Settings) (env : TMEnv) (w : World) :
    Except String String × World × List MOp :=
  match request_token_refresh cfg env.upPrimary with
  | (Except.error e, ops) => (Except.error e, w, ops ++ [MOp.metrics "refresh_failure"])
  | (Except.ok (t, expIn, scope), ops) =>
    let expiresAt := env.now + expIn.getD 3600
    let wc := cache_token_data t expiresAt (scope.getD "") env.now w
    (Except.ok t, wc.1, ops ++ wc.2 ++ [MOp.metrics "refresh_success"])

/-- The retry loop of `_acquire_refresh_lock` after the first failed attempt:
`for _ in range(LOCK_TIMEOUT_SECONDS)`, each iteration attempting the
conditional set and sleeping one second on failure. `i` is the index of the
next lock attempt in the environment, `fuel` the remaining iterations. -/
def lock_wait (lockEnv : ℕ → Bool) : ℕ → ℕ → Bool × List MOp
  | _, 0 => (false, [])
  | i, fuel + 1 =>
    if lockEnv i then (true, [MOp.lockAttempt true])
    else
      let r := lock_wait lockEnv (i + 1) fuel
      (r.1, MOp.lockAttempt false :: MOp.sleep 1 :: r.2)

/-- The acquisition part of `SpotifyTokenManager._acquire_refresh_lock`:
one conditional set, and on failure a one-second sleep followed by the
bounded retry loop; finally the lock metric is recorded. Returns whether
the lock was acquired. -/
def acquire_lock_ops (lockEnv : ℕ → Bool) : Bool × List MOp :=
  if lockEnv 0 then (true, [MOp.lockAttempt true, MOp.metrics "lock_acquired"])
  else
    let r := lock_wait lockEnv 1 LOCK_TIMEOUT_SECONDS
    (r.1, MOp.lockAttempt false :: MOp.sleep 1 :: r.2 ++
      [MOp.metrics (if r.1 then "lock_acquired" else "lock_failed")])

/-- The world as seen at the double-check read: any concurrent write by
another process during the lock wait has landed. -/
def double_check_world (env : TMEnv) (w : World) : World :=
  match env.raceWrite with
  | some r => { w with cache := r }
  | none => w

/-- `SpotifyTokenManager._refresh_token_with_lock`: with Redis up, run the
lock acquisition, re-read the cache once (the double-check, observing any
concurrent write), return a usable record's token, otherwise refresh and
cache; the lock is released on every exit path iff it was acquired.
Without Redis the call degrades to a direct refresh. -/
def refresh_token_with_lock (cfg : Settings) (env : TMEnv) (w : World) :
    Except String String × World × List MOp :=
  if w.redisAvailable then
    let acq := acquire_lock_ops env.lock
    let w1 := double_check_world env w
    let body : Except String String × World × List MOp :=
      if w1.cache ≠ [] ∧ is_token_still_valid w1.cache env.now then
        match dictGet w1.cache "access_token" with
        | some t => (Except.ok t, w1, [MOp.redisRead])
        | none => (Except.error "KeyError: access_token", w1, [MOp.redisRead])
      else
        let r := refresh_and_cache_token cfg env w1
        (r.1, r.2.1, MOp.redisRead :: r.2.2)
    (body.1, body.2.1, acq.2 ++ body.2.2 ++ (if acq.1 then [MOp.lockRelease] else []))
  else
    let r := direct_token_refresh cfg env.upPrimary
    (r.1, w, r.2)

/-- The `try` body of `get_valid_token` on the Redis-up path: read the cached
hash, serve it when `_is_token_still_valid` holds (raising `KeyError` if the
usable record lacks `access_token`), otherwise count a miss and refresh
under the lock. -/
def cached_path (cfg : Settings) (env : TMEnv) (w : World) :
    Except String String × World × List MOp :=
  if w.cache ≠ [] ∧ is_token_still_valid w.cache env.now then
    match dictGet w.cache "access_token" with
    | some t => (Except.ok t, w, [MOp.redisRead, MOp.metrics "cache_hit"])
    | none => (Except.error "KeyError: access_token", w, [MOp.redisRead, MOp.metrics "cache_hit"])
  else
    let r := refresh_token_with_lock cfg env w
    (r.1, r.2.1, MOp.redisRead :: MOp.metrics "cache_miss" :: r.2.2)

/-- `SpotifyTokenManager.get_valid_token`: with Redis down go straight to a
direct refresh; otherwise run the cached path; any exception from the body
falls back to one more direct refresh whose outcome is returned. -/
def get_valid_token (cfg : Settings) (env : TMEnv) (w : World) :
    Except String String × World × List MOp :=
  let tryRes : Except String String × World × List MOp :=
    if w.redisAvailable then cached_path cfg env w
    else
      let r := direct_token_refresh cfg env.upPrimary
      (r.1, w, r.2)
  match tryRes.1 with
  | Except.ok t => (Except.ok t, tryRes.2.1, tryRes.2.2)
  | Except.error _ =>
    let r2 := direct_token_refresh cfg env.upFallback
    (r2.1, tryRes.2.1, tryRes.2.2 ++ r2.2)

/-- `SpotifyTokenManager.force_refresh`: delete the cached hash when Redis is
up, acquire the lock, refresh and cache, count the force-refresh metric, and
release the lock; any failure falls back to one direct refresh. -/
def force_refresh (cfg : Settings) (env : TMEnv) (w : World) :
    Except String String × World × List MOp :=
  let delOps : List MOp := if w.redisAvailable then [MOp.cacheDelete] else []
  let w1 := if w.redisAvailable then { w with cache := [] } else w
  let acq := if w.redisAvailable then acquire_lock_ops env.lock else (false, [])
  let body := refresh_and_cache_token cfg env w1
  match body.1 with
  | Except.ok t =>
    (Except.ok t, body.2.1, delOps ++ acq.2 ++ body.2.2 ++ [MOp.metrics "force_refresh"] ++
      (if acq.1 then [MOp.lockRelease] else []))
  | Except.error _ =>
    let r2 := direct_token_refresh cfg env.upFallback
    (r2.1, body.2.1, delOps ++ acq.2 ++ body.2.2 ++
      (if acq.1 then [MOp.lockRelease] else []) ++ r2.2)

/-! Embedding of `backend/app/services/spotify_service.py`. -/

/-- The `REQUIRED_SCOPES` set of `spotify_service.py`. -/
def REQUIRED_SCOPES : List String :=
  ["user-read-private", "user-read-email",
   "playlist-read-private", "playlist-read-collaborative",
   "playlist-modify-public", "playlist-modify-private",
   "user-library-read", "user-library-modify", "user-top-read",
   "user-read-recently-played", "user-read-playback-state",
   "user-read-currently-playing",
   "user-follow-read", "user-follow-modify",
   "streaming", "app-remote-control", "ugc-image-upload"]

/-- Split a list of characters at whitespace runs, as Python `str.split()`
with no argument does; `acc` holds the current word reversed. -/
def wordsAux (acc : List Char) : List Char → List (List Char)
  | [] => if acc = [] then [] else [acc.reverse]
  | c :: cs =>
    if c.isWhitespace then
      if acc = [] then wordsAux [] cs else acc.reverse :: wordsAux [] cs
    else wordsAux (c :: acc) cs

/-- Python `token_scope.split()` followed by `strip()` of each piece. -/
def splitScopes (s : String) : List String :=
  (wordsAux [] s.toList).map (fun w => List.asString (trimChars w))

/-- `SpotifyServiceClient._validate_token_scopes`: an empty scope string is
only warned about; otherwise the granted scopes are parsed and the call
raises iff some required scope is missing. -/
def validate_token_scopes (tokenScope : String) : Except String Unit :=
  if tokenScope = "" then Except.ok ()
  else
    let granted := splitScopes tokenScope
    let missing := REQUIRED_SCOPES.filter (fun s => ! granted.contains s)
    if missing = [] then Except.ok ()
    else Except.error ("Insufficient token scopes. Missing: " ++ String.intercalate ", " missing)

/-- The local mutable state of `SpotifyServiceClient`: the cached client
handle, access token and tracked expiry. -/
structure SClientState where
  hasClient : Bool
  accessToken : Option String
  tokenExpiresAt : Option ℚ
  deriving DecidableEq, Repr

/-- Externally visible operations of the service-client refresher. -/
inductive SOp where
  | httpRefresh
  | probe
  | sleep (d : ℚ)
  deriving DecidableEq, Repr

/-- Environment of one `_refresh_client` attempt: the upstream's answer to
the token POST and the outcome of the `current_user()` verification call. -/
structure SEnv where
  upstream : UpstreamResult
  probe : Except String String

/-- `SpotifyServiceClient._get_access_token_from_refresh`: raise if the
refresh token is unconfigured, otherwise one HTTP POST; raise on a network
error, on any non-200 status, and on a body without an access token. -/
def s_get_access_token (cfg : Settings) (u : UpstreamResult) :
    Except String (String × Option ℚ × Option String) × List SOp :=
  if cfg.refreshTokenConfigured then
    match u with
    | UpstreamResult.netExc m => (Except.error m, [SOp.httpRefresh])
    | UpstreamResult.resp status tok expIn scope =>
      if status ≠ 200 then
        (Except.error ("Failed to refresh access token: " ++ toString status), [SOp.httpRefresh])
      else
        match tok with
        | none => (Except.error "No access token in refresh response", [SOp.httpRefresh])
        | some t => (Except.ok (t, expIn, scope), [SOp.httpRefresh])
  else (Except.error "SPOTIFY_SERVICE_REFRESH_TOKEN not configured", [])

/-- One iteration of the `_refresh_client` retry loop: exchange the refresh
token, install the new client state, verify with `current_user()`, then
validate scopes when a scope string is present. The state mutation has
already happened when the probe or the scope validation raises. -/
def refresh_client_attempt (cfg : Settings) (e : SEnv) (now : ℚ) (st : SClientState) :
    Except String Unit × SClientState × List SOp :=
  match s_get_access_token cfg e.upstream with
  | (Except.error m, ops) => (Except.error m, st, ops)
  | (Except.ok (t, expIn, scope), ops) =>
    let st1 : SClientState :=
      { hasClient := true, accessToken := some t,
        tokenExpiresAt := some (now + expIn.getD 3600) }
    match e.probe with
    | Except.error m => (Except.error m, st1, ops ++ [SOp.probe])
    | Except.ok _ =>
      let sc := scope.getD ""
      if sc ≠ "" then
        match validate_token_scopes sc with
        | Except.error m => (Except.error m, st1, ops ++ [SOp.probe])
        | Except.ok _ => (Except.ok (), st1, ops ++ [SOp.probe])
      else (Except.ok (), st1, ops ++ [SOp.probe])

/-- The `for attempt in range(max_retries)` loop of `_refresh_client`, with
`base_delay = 1.0`: on failure of a non-final attempt sleep
`base_delay * 2 ** attempt` and retry; the final failure clears the client
state and re-raises. `fuel` counts remaining attempts, `k` the 0-based
attempt index. -/
def refresh_client_go (cfg : Settings) (env : ℕ → SEnv) (now : ℚ) :
    ℕ → ℕ → SClientState → Except String Unit × SClientState × List SOp
  | 0, _, st => (Except.ok (), st, [])
  | fuel + 1, k, st =>
    let a := refresh_client_attempt cfg (env k) now st
    match a.1 with
    | Except.ok _ => (Except.ok (), a.2.1, a.2.2)
    | Except.error m =>
      if fuel = 0 then
        (Except.error m, { hasClient := false, accessToken := none, tokenExpiresAt := none }, a.2.2)
      else
        let r := refresh_client_go cfg env now fuel (k + 1) a.2.1
        (r.1, r.2.1, a.2.2 ++ SOp.sleep (1 * 2 ^ k) :: r.2.2)

/-- `SpotifyServiceClient._refresh_client`: `max_retries = 3` attempts. -/
def refresh_client (cfg : Settings) (env : ℕ → SEnv) (now : ℚ) (st : SClientState) :
    Except String Unit × SClientState × List SOp :=
  refresh_client_go cfg env now 3 0 st

/-- Whether the first list occurs contiguously at the head of the second. -/
def leadsList : List Char → List Char → Bool
  | [], _ => true
  | _ :: _, [] => false
  | a :: as, b :: bs => a == b && leadsList as bs

/-- Whether the first list occurs contiguously anywhere in the second. -/
def hasSubList (n : List Char) : List Char → Bool
  | [] => leadsList n []
  | c :: cs => leadsList n (c :: cs) || hasSubList n cs

/-- Python `needle in str(e)`. -/
def strHas (hay needle : String) : Bool := hasSubList needle.toList hay.toList

/-- The auth-classification test of `get_client_with_retry`:
`"401" in str(e) or "403" in str(e)`. -/
def auth_error (m : String) : Bool := strHas m "401" || strHas m "403"

/-- Environment of one `get_client_with_retry` attempt: the outcome of
`await self.get_client()` and of the probe `client.current_user()`. -/
structure FEnv where
  getClient : Except String Unit
  probe : Except String String

/-- Externally visible operations of the client factory retry wrapper.
`forceRefreshCall` would be a call to `SpotifyTokenManager.force_refresh`;
the embedded code never emits it. -/
inductive FOp where
  | getClientCall
  | probeCall
  | clearState
  | forceRefreshCall
  deriving DecidableEq, Repr

/-- The `for attempt in range(max_retries + 1)` loop of
`get_client_with_retry`: probe through the client; on an error whose text
contains 401 or 403 clear the local client state and retry while
`attempt < max_retries`, otherwise re-raise; a non-auth error is re-raised
immediately. -/
def get_client_with_retry_go (env : ℕ → FEnv) (maxRetries : ℕ) :
    ℕ → ℕ → Except String Unit × List FOp
  | 0, _ => (Except.error "loop exhausted", [])
  | fuel + 1, k =>
    let step : Except String Unit × List FOp :=
      match (env k).getClient with
      | Except.error m => (Except.error m, [FOp.getClientCall])
      | Except.ok _ =>
        match (env k).probe with
        | Except.error m => (Except.error m, [FOp.getClientCall, FOp.probeCall])
        | Except.ok _ => (Except.ok (), [FOp.getClientCall, FOp.probeCall])
    match step.1 with
    | Except.ok _ => (Except.ok (), step.2)
    | Except.error m =>
      if auth_error m then
        if k < maxRetries then
          let r := get_client_with_retry_go env maxRetries fuel (k + 1)
          (r.1, step.2 ++ FOp.clearState :: r.2)
        else (Except.error m, step.2)
      else (Except.error m, step.2)

/-- `SpotifyServiceClient.get_client_with_retry(max_retries)`. -/
def get_client_with_retry (env : ℕ → FEnv) (maxRetries : ℕ) :
    Except String Unit × List FOp :=
  get_client_with_retry_go env maxRetries (maxRetries + 1) 0

/-- Helper: whether an `Except` is the error case. -/
def isErr {α β : Type} : Except α β → Bool
  | Except.error _ => true
  | Except.ok _ => false

/-- A world with Redis up and an empty cache, used by concrete runs. -/
def wEmpty : World := { redisAvailable := true, cache := [] }

/-- Concrete run: every lock attempt fails; another process has written a
usable record that the double-check will see. -/
def envLockBusyRaced : TMEnv :=
  { now := 1000, lock := fun _ => false,
    raceWrite := some [("access_token", "RACED"), ("expires_at", "5000.0")],
    upPrimary := UpstreamResult.resp 200 (some "NEW") (some 3600) none,
    upFallback := UpstreamResult.netExc "down" }

/-- Concrete run: every lock attempt fails and the cache stays stale, so the
unlocked refresh runs. -/
def envLockBusyStale : TMEnv :=
  { now := 1000, lock := fun _ => false, raceWrite := none,
    upPrimary := UpstreamResult.resp 200 (some "NEW") (some 3600) none,
    upFallback := UpstreamResult.netExc "down" }

/-- Concrete force-refresh run: lock acquired first try, healthy upstream,
stale record `OLD` in the cache. -/
def envForce : TMEnv :=
  { now := 1000, lock := fun _ => true, raceWrite := none,
    upPrimary := UpstreamResult.resp 200 (some "NEW") (some 3600) none,
    upFallback := UpstreamResult.netExc "down" }

/-- The world holding the failing token that triggered the force refresh. -/
def wOld : World :=
  { redisAvailable := true,
    cache := [("access_token", "OLD"), ("expires_at", "1050.0")] }

/-- A fresh client state: no client, no token. -/
def sClean : SClientState := { hasClient := false, accessToken := none, tokenExpiresAt := none }

/-- Concrete upstream behaviour: HTTP 400 on the first attempt, healthy and
scope-free afterwards. -/
def env400 : ℕ → SEnv := fun k =>
  if k = 0 then { upstream := UpstreamResult.resp 400 none none none, probe := Except.ok "u" }
  else { upstream := UpstreamResult.resp 200 (some "T2") (some 3600) none, probe := Except.ok "u" }

/-- Concrete upstream behaviour: attempt 0 succeeds at the HTTP level but
grants only one scope; attempt 1 succeeds without scope information. -/
def envScopeDef : ℕ → SEnv := fun k =>
  if k = 0 then
    { upstream := UpstreamResult.resp 200 (some "T1") (some 3600) (some "user-read-private"),
      probe := Except.ok "u" }
  else
    { upstream := UpstreamResult.resp 200 (some "T2") (some 3600) none,
      probe := Except.ok "u" }

/-- Concrete factory run: the first probe fails with a 401-tagged error, the
second succeeds. -/
def envAuth : ℕ → FEnv := fun k =>
  if k = 0 then { getClient := Except.ok (), probe := Except.error "http status 401" }
  else { getClient := Except.ok (), probe := Except.ok "user" }

/-- Helper: a positive Python truncation is bounded by its argument. -/
theorem pyInt_pos_le (q : ℚ) (hq : 0 < pyInt q) : (pyInt q : ℚ) ≤ q := by
  unfold pyInt at *
  split_ifs at * with h
  · exact_mod_cast Int.floor_le q
  · exfalso
    have hle : (⌈q⌉ : ℤ) ≤ 0 := Int.ceil_le.mpr (by push_cast; linarith)
    omega

/-- Claim C10: the usability check `_is_token_still_valid` is total on
malformed cache records: an empty record, a record without a truthy
`expires_at` field, and a record whose `expires_at` value does not parse as
a number all yield `false` (treated as needing refresh) instead of raising;
on a parseable value the check is exactly the threshold comparison. -/
theorem c10_malformed_record_totality (rec : List (String × String)) (now : ℚ) (s : String) :
    is_token_still_valid [] now = false
    ∧ (dictGet rec "expires_at" = none → is_token_still_valid rec now = false)
    ∧ (dictGet rec "expires_at" = some "" → is_token_still_valid rec now = false)
    ∧ (dictGet rec "expires_at" = some s → pyFloat s = none →
        is_token_still_valid rec now = false)
    ∧ (∀ q : ℚ, dictGet rec "expires_at" = some s → s ≠ "" → pyFloat s = some q →
        is_token_still_valid rec now = decide (q - now > REFRESH_THRESHOLD_SECONDS)) := by
  refine ⟨rfl, ?_, ?_, ?_, ?_⟩
  · intro h; simp [is_token_still_valid, h]
  · intro h; simp [is_token_still_valid, h]
  · intro h hp
    simp [is_token_still_valid, h, hp]
  · intro q h hs hp
    simp [is_token_still_valid, h, hs, hp]

/-- Witness for C10 at a concrete corrupt record. -/
theorem c10_malformed_record_totality_witness :
    dictGet [("expires_at", "oops")] "expires_at" = some "oops"
    ∧ pyFloat "oops" = none
    ∧ is_token_still_valid [("expires_at", "oops")] 7 = false :=
  ⟨by decide, by decide,
    (c10_malformed_record_totality [("expires_at", "oops")] 7 "oops").2.2.2.1
      (by decide) (by decide)⟩

/-- Claim C3: every cache write computes
`ttl = int(expires_at - now - REDIS_TTL_BUFFER)`; a non-positive ttl skips
the write entirely while the refresh still hands the token to the caller,
and a positive ttl stores the record with exactly that store-level TTL,
which undercuts `expires_at - now` by at least `REDIS_TTL_BUFFER` seconds. -/
theorem c3_ttl_buffer_invariant (token scope : String) (expiresAt now : ℚ) (w : World)
    (hr : w.redisAvailable = true) :
    (pyInt (expiresAt - now - REDIS_TTL_BUFFER) ≤ 0 →
      cache_token_data token expiresAt scope now w = (w, []))
    ∧ (0 < pyInt (expiresAt - now - REDIS_TTL_BUFFER) →
      (cache_token_data token expiresAt scope now w).2 =
        [MOp.cacheWrite token (pyInt (expiresAt - now - REDIS_TTL_BUFFER))]
      ∧ ((pyInt (expiresAt - now - REDIS_TTL_BUFFER) : ℚ) + REDIS_TTL_BUFFER ≤ expiresAt - now))
    ∧ (∀ (cfg : Settings) (env : TMEnv) (w2 : World) (t : String)
        (ei : Option ℚ) (sc : Option String) (rops : List MOp),
        request_token_refresh cfg env.upPrimary = (Except.ok (t, ei, sc), rops) →
        (refresh_and_cache_token cfg env w2).1 = Except.ok t) := by
  refine ⟨?_, ?_, ?_⟩
  · intro h
    simp only [cache_token_data, hr, if_true]
    rw [if_neg (by omega)]
  · intro h
    constructor
    · simp only [cache_token_data, hr, if_true]
      rw [if_pos h]
    · have := pyInt_pos_le (expiresAt - now - REDIS_TTL_BUFFER) h
      linarith
  · intro cfg env w2 t ei sc rops hreq
    simp only [refresh_and_cache_token, hreq]

/-- Witness for C3 at a concrete write. -/
theorem c3_ttl_buffer_invariant_witness :
    0 < pyInt ((4600 : ℚ) - 1000 - REDIS_TTL_BUFFER)
    ∧ ((cache_token_data "T" 4600 "" 1000 { redisAvailable := true, cache := [] }).2 =
        [MOp.cacheWrite "T" (pyInt ((4600 : ℚ) - 1000 - REDIS_TTL_BUFFER))]
      ∧ ((pyInt ((4600 : ℚ) - 1000 - REDIS_TTL_BUFFER) : ℚ) + REDIS_TTL_BUFFER ≤ 4600 - 1000)) :=
  ⟨by decide,
    (c3_ttl_buffer_invariant "T" "" 4600 1000 { redisAvailable := true, cache := [] } rfl).2.1
      (by decide)⟩

/-- Claim C1: `get_valid_token` serves the cached record exactly when
`_is_token_still_valid` holds of it (`expires_at - now` strictly above
`REFRESH_THRESHOLD_SECONDS`); a record failing the test is never served
from the cache and the call proceeds to the locked refresh on the
cache-miss path. -/
theorem c1_cached_token_freshness (cfg : Settings) (env : TMEnv) (w : World) (t : String)
    (hr : w.redisAvailable = true) :
    (is_token_still_valid w.cache env.now = true →
      dictGet w.cache "access_token" = some t →
      get_valid_token cfg env w = (Except.ok t, w, [MOp.redisRead, MOp.metrics "cache_hit"]))
    ∧ (is_token_still_valid w.cache env.now = false →
      get_valid_token cfg env w =
        match refresh_token_with_lock cfg env w with
        | (Except.ok t2, w2, ops) =>
          (Except.ok t2, w2, MOp.redisRead :: MOp.metrics "cache_miss" :: ops)
        | (Except.error _, w2, ops) =>
          ((direct_token_refresh cfg env.upFallback).1, w2,
            (MOp.redisRead :: MOp.metrics "cache_miss" :: ops) ++
              (direct_token_refresh cfg env.upFallback).2)) := by
  constructor
  · intro hv ht
    have hne : w.cache ≠ [] := by
      intro hnil
      rw [hnil] at hv
      simp [is_token_still_valid, dictGet] at hv
    simp only [get_valid_token, cached_path, hr, if_true]
    rw [if_pos ⟨hne, hv⟩, ht]
  · intro hv
    simp only [get_valid_token, cached_path, hr, if_true]
    rw [if_neg (by intro hc; exact absurd hv (by rw [hc.2]; intro h; cases h))]
    rcases hrw : refresh_token_with_lock cfg env w with ⟨res, w2, ops⟩
    cases res <;> simp

/-- Witness for C1: a usable record is served from the cache, and a stale
one sends the call to the refresh path. -/
theorem c1_cached_token_freshness_witness :
    is_token_still_valid [("access_token", "TOK"), ("expires_at", "2000.0")] 1000 = true
    ∧ get_valid_token { refreshTokenConfigured := true }
        { now := 1000, lock := fun _ => true, raceWrite := none,
          upPrimary := UpstreamResult.resp 200 (some "NEW") (some 3600) none,
          upFallback := UpstreamResult.netExc "down" }
        { redisAvailable := true,
          cache := [("access_token", "TOK"), ("expires_at", "2000.0")] } =
      (Except.ok "TOK",
        { redisAvailable := true,
          cache := [("access_token", "TOK"), ("expires_at", "2000.0")] },
        [MOp.redisRead, MOp.metrics "cache_hit"]) :=
  ⟨by decide,
    (c1_cached_token_freshness { refreshTokenConfigured := true }
      { now := 1000, lock := fun _ => true, raceWrite := none,
        upPrimary := UpstreamResult.resp 200 (some "NEW") (some 3600) none,
        upFallback := UpstreamResult.netExc "down" }
      { redisAvailable := true,
        cache := [("access_token", "TOK"), ("expires_at", "2000.0")] }
      "TOK" rfl).1 (by decide) (by decide)⟩

/-- Helper: when configured, a direct refresh makes exactly the single HTTP
call, whatever the upstream answers. -/
theorem direct_refresh_one_call (cfg : Settings) (u : UpstreamResult)
    (hc : cfg.refreshTokenConfigured = true) :
    (direct_token_refresh cfg u).2 = [MOp.httpRefresh] := by
  cases u with
  | netExc m => simp [direct_token_refresh, request_token_refresh, hc]
  | resp status tok expIn scope =>
    simp only [direct_token_refresh, request_token_refresh, hc, if_true]
    split_ifs with hs
    · rfl
    · cases tok <;> rfl

/-- Claim C6: with the store unreachable, `get_valid_token` performs one
direct refresh with no caching or locking and returns its token; and an
exception anywhere in the cached path leads to exactly one more unlocked,
uncached direct refresh whose outcome (success or failure) is what the
caller observes. -/
theorem c6_degraded_fallback (cfg : Settings) (env : TMEnv) (w : World) (t e : String)
    (hc : cfg.refreshTokenConfigured = true) :
    (w.redisAvailable = false →
      (direct_token_refresh cfg env.upPrimary).1 = Except.ok t →
      get_valid_token cfg env w = (Except.ok t, w, [MOp.httpRefresh]))
    ∧ (w.redisAvailable = true →
      (cached_path cfg env w).1 = Except.error e →
      get_valid_token cfg env w =
        ((direct_token_refresh cfg env.upFallback).1, (cached_path cfg env w).2.1,
          (cached_path cfg env w).2.2 ++ [MOp.httpRefresh])
      ∧ (direct_token_refresh cfg env.upFallback).2 = [MOp.httpRefresh]) := by
  constructor
  · intro hw hok
    have hops := direct_refresh_one_call cfg env.upPrimary hc
    simp only [get_valid_token, hw, Bool.false_eq_true, if_false]
    rcases hd : direct_token_refresh cfg env.upPrimary with ⟨r, ops⟩
    rw [hd] at hok hops
    simp only at hok hops
    rw [hok, hops]
  · intro hw herr
    have hops := direct_refresh_one_call cfg env.upFallback hc
    constructor
    · simp only [get_valid_token, hw, if_true]
      rw [herr, hops]
    · exact hops

/-- Witness for C6: Redis down, upstream healthy. -/
theorem c6_degraded_fallback_witness :
    ({ redisAvailable := false, cache := [] } : World).redisAvailable = false
    ∧ (direct_token_refresh { refreshTokenConfigured := true }
        (UpstreamResult.resp 200 (some "D1") (some 3600) none)).1 = Except.ok "D1"
    ∧ get_valid_token { refreshTokenConfigured := true }
        { now := 50, lock := fun _ => false, raceWrite := none,
          upPrimary := UpstreamResult.resp 200 (some "D1") (some 3600) none,
          upFallback := UpstreamResult.netExc "down" }
        { redisAvailable := false, cache := [] } =
      (Except.ok "D1", { redisAvailable := false, cache := [] }, [MOp.httpRefresh]) :=
  ⟨rfl, by decide,
    (c6_degraded_fallback { refreshTokenConfigured := true }
      { now := 50, lock := fun _ => false, raceWrite := none,
        upPrimary := UpstreamResult.resp 200 (some "D1") (some 3600) none,
        upFallback := UpstreamResult.netExc "down" }
      { redisAvailable := false, cache := [] } "D1" "x" rfl).1 rfl (by decide)⟩

/-- Helper: the lock wait loop performs no HTTP call and no cache read. -/
theorem lock_wait_ops_clean (lockEnv : ℕ → Bool) (i fuel : ℕ) :
    (lock_wait lockEnv i fuel).2.count MOp.httpRefresh = 0
    ∧ (lock_wait lockEnv i fuel).2.count MOp.redisRead = 0 := by
  induction fuel generalizing i with
  | zero => simp [lock_wait]
  | succ n ih =>
    simp only [lock_wait]
    split_ifs with h
    · simp [List.count_cons]
    · have := ih (i + 1)
      simp [List.count_cons, this.1, this.2]

/-- Helper: the whole lock acquisition performs no HTTP call and no cache
read. -/
theorem acquire_lock_ops_clean (lockEnv : ℕ → Bool) :
    (acquire_lock_ops lockEnv).2.count MOp.httpRefresh = 0
    ∧ (acquire_lock_ops lockEnv).2.count MOp.redisRead = 0 := by
  unfold acquire_lock_ops
  split_ifs with h
  · simp [List.count_cons]
  · have := lock_wait_ops_clean lockEnv 1 LOCK_TIMEOUT_SECONDS
    simp [List.count_cons, List.count_append, this.1, this.2]

/-- Claim C7: whenever the refresh path acquires the distributed lock, the
cache is re-read once before any network work; a usable re-read record is
returned with no upstream call made, and otherwise the network refresh is
performed, the new record written, the lock released and the fresh token
returned. -/
theorem c7_double_checked_refresh (cfg : Settings) (env : TMEnv) (w : World)
    (hr : w.redisAvailable = true)
    (hacq : (acquire_lock_ops env.lock).1 = true) :
    (∀ t, is_token_still_valid (double_check_world env w).cache env.now = true →
      dictGet (double_check_world env w).cache "access_token" = some t →
      refresh_token_with_lock cfg env w =
        (Except.ok t, double_check_world env w,
          (acquire_lock_ops env.lock).2 ++ [MOp.redisRead] ++ [MOp.lockRelease])
      ∧ ((acquire_lock_ops env.lock).2 ++ [MOp.redisRead] ++
          [MOp.lockRelease]).count MOp.httpRefresh = 0)
    ∧ (∀ t expIn, is_token_still_valid (double_check_world env w).cache env.now = false →
      cfg.refreshTokenConfigured = true →
      env.upPrimary = UpstreamResult.resp 200 (some t) (some expIn) none →
      0 < pyInt (expIn - REDIS_TTL_BUFFER) →
      refresh_token_with_lock cfg env w =
        (Except.ok t,
          { redisAvailable := (double_check_world env w).redisAvailable,
            cache := [("access_token", t), ("expires_at", floatStr (env.now + expIn)),
              ("scope", ""), ("cached_at", floatStr env.now)] },
          (acquire_lock_ops env.lock).2 ++
            [MOp.redisRead, MOp.httpRefresh,
              MOp.cacheWrite t (pyInt (expIn - REDIS_TTL_BUFFER)),
              MOp.metrics "refresh_success", MOp.lockRelease])) := by
  constructor
  · intro t hv ht
    have hne : (double_check_world env w).cache ≠ [] := by
      intro hnil
      rw [hnil] at hv
      simp [is_token_still_valid, dictGet] at hv
    constructor
    · simp only [refresh_token_with_lock, hr, if_true]
      rw [if_pos ⟨hne, hv⟩, ht, hacq]
      simp
    · have := acquire_lock_ops_clean env.lock
      simp [List.count_append, List.count_cons, this.1]
  · intro t expIn hv hc hup httl
    have hdcr : (double_check_world env w).redisAvailable = true := by
      unfold double_check_world
      cases env.raceWrite <;> simp [hr]
    have hcond : ¬ ((double_check_world env w).cache ≠ [] ∧
        is_token_still_valid (double_check_world env w).cache env.now) := by
      intro hcon
      rw [hv] at hcon
      cases hcon.2
    have harith : env.now + expIn - env.now - REDIS_TTL_BUFFER = expIn - REDIS_TTL_BUFFER := by
      ring
    simp only [refresh_token_with_lock, hr, if_true]
    rw [if_neg hcond]
    simp only [refresh_and_cache_token, request_token_refresh, hc, if_true, hup]
    rw [if_neg (by omega)]
    simp only [Option.getD, cache_token_data, hdcr, if_true, harith]
    rw [if_pos httl, hacq]
    simp

/-- Witness for C7: lock acquired first try, double-check finds a record
refreshed by another process, no upstream call. -/
theorem c7_double_checked_refresh_witness :
    (acquire_lock_ops (fun _ => true)).1 = true
    ∧ is_token_still_valid [("access_token", "RACED"), ("expires_at", "5000.0")] 1000 = true
    ∧ refresh_token_with_lock { refreshTokenConfigured := true }
        { now := 1000, lock := fun _ => true,
          raceWrite := some [("access_token", "RACED"), ("expires_at", "5000.0")],
          upPrimary := UpstreamResult.resp 200 (some "NEW") (some 3600) none,
          upFallback := UpstreamResult.netExc "down" }
        { redisAvailable := true, cache := [] } =
      (Except.ok "RACED",
        { redisAvailable := true,
          cache := [("access_token", "RACED"), ("expires_at", "5000.0")] },
        [MOp.lockAttempt true, MOp.metrics "lock_acquired", MOp.redisRead, MOp.lockRelease]) := by
  refine ⟨by decide, by decide, ?_⟩
  have h := ((c7_double_checked_refresh { refreshTokenConfigured := true }
    { now := 1000, lock := fun _ => true,
      raceWrite := some [("access_token", "RACED"), ("expires_at", "5000.0")],
      upPrimary := UpstreamResult.resp 200 (some "NEW") (some 3600) none,
      upFallback := UpstreamResult.netExc "down" }
    { redisAvailable := true, cache := [] } rfl (by decide)).1 "RACED"
    (by decide) (by decide)).1
  rw [h]
  decide

/-- Claim C2 counterexample: with every lock attempt failing, the wait
makes 31 lock attempts but the whole operation reads the cache exactly once
(after the wait), not once per iteration as claimed; and when that single
post-wait read is stale, the ensuing unlocked refresh writes the new record
to the cache, so it is not the claimed uncached direct refresh. -/
theorem c2_lock_wait_counterexample :
    ((refresh_token_with_lock { refreshTokenConfigured := true } envLockBusyRaced wEmpty).2.2.count
        (MOp.lockAttempt false) = 31
      ∧ (refresh_token_with_lock { refreshTokenConfigured := true } envLockBusyRaced wEmpty).2.2.count
        MOp.redisRead = 1)
    ∧ (refresh_token_with_lock { refreshTokenConfigured := true } envLockBusyStale wEmpty).2.2.count
        (MOp.cacheWrite "NEW" 3540) = 1 := by
  decide

/-- Helper: each wait iteration makes exactly one lock attempt, so the loop
is bounded by its fuel. -/
theorem lock_wait_attempt_bound (lockEnv : ℕ → Bool) (i fuel : ℕ) :
    (lock_wait lockEnv i fuel).2.count (MOp.lockAttempt true) +
      (lock_wait lockEnv i fuel).2.count (MOp.lockAttempt false) ≤ fuel := by
  induction fuel generalizing i with
  | zero => simp [lock_wait]
  | succ n ih =>
    simp only [lock_wait]
    split_ifs with h
    · simp [List.count_cons]
    · have := ih (i + 1)
      simp only [List.count_cons]
      simp
      omega

/-- Helper: if no lock attempt ever succeeds, the wait ends unacquired. -/
theorem lock_wait_all_fail (lockEnv : ℕ → Bool) (hall : ∀ i, lockEnv i = false)
    (i fuel : ℕ) : (lock_wait lockEnv i fuel).1 = false := by
  induction fuel generalizing i with
  | zero => simp [lock_wait]
  | succ n ih =>
    simp only [lock_wait]
    rw [if_neg (by rw [hall i]; intro h; cases h)]
    exact ih (i + 1)

/-- Claim C2 amended: when the first lock attempt fails, the caller sleeps
and retries lock acquisition only — at most 31 attempts in total and no
cache read during the wait; if no attempt succeeds the wait ends without
the lock and the caller proceeds unlocked to the ordinary double-checked
refresh: one cache re-read, a usable record returned immediately, and
otherwise the refresh-and-cache (which writes the new record) with no lock
release. -/
theorem c2_lock_wait_amended (cfg : Settings) (env : TMEnv) (w : World) (t : String)
    (hr : w.redisAvailable = true) (_hl0 : env.lock 0 = false) :
    ((acquire_lock_ops env.lock).2.count MOp.redisRead = 0
      ∧ (acquire_lock_ops env.lock).2.count (MOp.lockAttempt true) +
          (acquire_lock_ops env.lock).2.count (MOp.lockAttempt false) ≤ 31)
    ∧ ((∀ i, env.lock i = false) → (acquire_lock_ops env.lock).1 = false)
    ∧ ((acquire_lock_ops env.lock).1 = false →
        (is_token_still_valid (double_check_world env w).cache env.now = true →
          dictGet (double_check_world env w).cache "access_token" = some t →
          refresh_token_with_lock cfg env w =
            (Except.ok t, double_check_world env w,
              (acquire_lock_ops env.lock).2 ++ [MOp.redisRead]))
        ∧ (is_token_still_valid (double_check_world env w).cache env.now = false →
          refresh_token_with_lock cfg env w =
            ((refresh_and_cache_token cfg env (double_check_world env w)).1,
              (refresh_and_cache_token cfg env (double_check_world env w)).2.1,
              (acquire_lock_ops env.lock).2 ++ MOp.redisRead ::
                (refresh_and_cache_token cfg env (double_check_world env w)).2.2))) := by
  refine ⟨⟨(acquire_lock_ops_clean env.lock).2, ?_⟩, ?_, ?_⟩
  · unfold acquire_lock_ops
    split_ifs with h
    · simp [List.count_cons]
    · have := lock_wait_attempt_bound env.lock 1 LOCK_TIMEOUT_SECONDS
      simp only [List.count_cons, List.count_append]
      simp [LOCK_TIMEOUT_SECONDS] at this ⊢
      omega
  · intro hall
    unfold acquire_lock_ops
    rw [if_neg (by rw [hall 0]; intro h; cases h)]
    simp only
    exact lock_wait_all_fail env.lock hall 1 LOCK_TIMEOUT_SECONDS
  · intro hacq
    constructor
    · intro hv ht
      have hne : (double_check_world env w).cache ≠ [] := by
        intro hnil
        rw [hnil] at hv
        simp [is_token_still_valid, dictGet] at hv
      simp only [refresh_token_with_lock, hr, if_true]
      rw [if_pos ⟨hne, hv⟩, ht, hacq]
      simp
    · intro hv
      have hcond : ¬ ((double_check_world env w).cache ≠ [] ∧
          is_token_still_valid (double_check_world env w).cache env.now) := by
        intro hcon
        rw [hv] at hcon
        cases hcon.2
      simp only [refresh_token_with_lock, hr, if_true]
      rw [if_neg hcond, hacq]
      simp

/-- Witness for C2 amended: the all-fail run, serving the raced record after
the wait. -/
theorem c2_lock_wait_amended_witness :
    envLockBusyRaced.lock 0 = false
    ∧ (acquire_lock_ops envLockBusyRaced.lock).1 = false
    ∧ is_token_still_valid (double_check_world envLockBusyRaced wEmpty).cache
        envLockBusyRaced.now = true
    ∧ refresh_token_with_lock { refreshTokenConfigured := true } envLockBusyRaced wEmpty =
      (Except.ok "RACED", double_check_world envLockBusyRaced wEmpty,
        (acquire_lock_ops envLockBusyRaced.lock).2 ++ [MOp.redisRead]) :=
  ⟨rfl, by decide, by decide,
    (((c2_lock_wait_amended { refreshTokenConfigured := true } envLockBusyRaced wEmpty
      "RACED" rfl rfl).2.2 (by decide)).1 (by decide) (by decide))⟩

/-- Helper: a successful upstream exchange returns exactly the token the
upstream issued. -/
theorem request_ok_token (cfg : Settings) (u : UpstreamResult) (t : String)
    (ei : Option ℚ) (sc : Option String)
    (h : (request_token_refresh cfg u).1 = Except.ok (t, ei, sc)) :
    upTokOf u = some t := by
  unfold request_token_refresh at h
  split_ifs at h with hc
  cases u with
  | netExc m => simp at h
  | resp status tok expIn scope =>
    simp only at h
    split_ifs at h with hs
    cases tok with
    | none => simp at h
    | some t0 =>
      simp only [upTokOf]
      simp at h
      rw [h.1]

/-- Helper: a successful direct refresh returns the upstream's token. -/
theorem direct_ok_token (cfg : Settings) (u : UpstreamResult) (t : String)
    (h : (direct_token_refresh cfg u).1 = Except.ok t) :
    upTokOf u = some t := by
  unfold direct_token_refresh at h
  rcases hreq : request_token_refresh cfg u with ⟨r, ops⟩
  rw [hreq] at h
  cases r with
  | error e => simp at h
  | ok v =>
    rcases v with ⟨t0, ei, sc⟩
    simp at h
    rw [← h]
    exact request_ok_token cfg u t0 ei sc (by rw [hreq])

/-- Helper: a successful refresh-and-cache returns the upstream's token. -/
theorem rac_ok_token (cfg : Settings) (env : TMEnv) (w : World) (t : String)
    (h : (refresh_and_cache_token cfg env w).1 = Except.ok t) :
    upTokOf env.upPrimary = some t := by
  unfold refresh_and_cache_token at h
  rcases hreq : request_token_refresh cfg env.upPrimary with ⟨r, ops⟩
  rw [hreq] at h
  cases r with
  | error e => simp at h
  | ok v =>
    rcases v with ⟨t0, ei, sc⟩
    simp at h
    rw [← h]
    exact request_ok_token cfg env.upPrimary t0 ei sc (by rw [hreq])

/-- Helper: caching never changes the Redis availability flag. -/
theorem cache_token_data_redis (token : String) (ea : ℚ) (sc : String) (now : ℚ)
    (w : World) : (cache_token_data token ea sc now w).1.redisAvailable = w.redisAvailable := by
  simp only [cache_token_data]
  split_ifs <;> rfl

/-- Helper: refresh-and-cache never changes the Redis availability flag. -/
theorem rac_redis (cfg : Settings) (env : TMEnv) (w : World) :
    (refresh_and_cache_token cfg env w).2.1.redisAvailable = w.redisAvailable := by
  unfold refresh_and_cache_token
  rcases hreq : request_token_refresh cfg env.upPrimary with ⟨r, ops⟩
  cases r with
  | error e => rfl
  | ok v =>
    rcases v with ⟨t0, ei, sc⟩
    simp only
    exact cache_token_data_redis t0 (env.now + ei.getD 3600) (sc.getD "") env.now w

/-- Helper: looking up a key at the head of the record. -/
theorem dictGet_cons_hit (k v : String) (rest : List (String × String)) :
    dictGet ((k, v) :: rest) k = some v := by
  unfold dictGet
  rw [List.find?_cons_of_pos _ (by simp)]
  rfl

/-- Helper: any access token readable from the world after refresh-and-cache
is the upstream's token or was already readable before. -/
theorem rac_cache_source (cfg : Settings) (env : TMEnv) (w : World) (v : String)
    (h : dictGet (refresh_and_cache_token cfg env w).2.1.cache "access_token" = some v) :
    upTokOf env.upPrimary = some v ∨ dictGet w.cache "access_token" = some v := by
  unfold refresh_and_cache_token at h
  rcases hreq : request_token_refresh cfg env.upPrimary with ⟨r, ops⟩
  rw [hreq] at h
  cases r with
  | error e => exact Or.inr h
  | ok tup =>
    rcases tup with ⟨t0, ei, sc⟩
    simp only [cache_token_data] at h
    split_ifs at h with h1 h2
    · simp only [dictGet_cons_hit] at h
      left
      rw [← Option.some.inj h]
      exact request_ok_token cfg env.upPrimary t0 ei sc (by rw [hreq])
    · exact Or.inr h
    · exact Or.inr h

/-- Helper: a token successfully returned by the locked refresh path was
read from the pre-call cache (no concurrent write) or issued upstream. -/
theorem rtwl_ok_source (cfg : Settings) (env : TMEnv) (w : World) (t : String)
    (hnr : env.raceWrite = none)
    (h : (refresh_token_with_lock cfg env w).1 = Except.ok t) :
    dictGet w.cache "access_token" = some t ∨ upTokOf env.upPrimary = some t := by
  have hdc : double_check_world env w = w := by
    unfold double_check_world
    rw [hnr]
  unfold refresh_token_with_lock at h
  split_ifs at h with hred
  · simp only [hdc] at h
    split_ifs at h with hval
    · rcases hdg : dictGet w.cache "access_token" with _ | t0 <;> rw [hdg] at h
      · simp at h
      · simp at h
        exact Or.inl (by rw [h])
    · simp only at h
      exact Or.inr (rac_ok_token cfg env w t h)
  · exact Or.inr (direct_ok_token cfg env.upPrimary t h)

/-- Helper: a token successfully returned by the cached path was read from
the cache or issued upstream. -/
theorem cached_path_ok_source (cfg : Settings) (env : TMEnv) (w : World) (t : String)
    (hnr : env.raceWrite = none)
    (h : (cached_path cfg env w).1 = Except.ok t) :
    dictGet w.cache "access_token" = some t ∨ upTokOf env.upPrimary = some t := by
  unfold cached_path at h
  split_ifs at h with hval
  · rcases hdg : dictGet w.cache "access_token" with _ | t0 <;> rw [hdg] at h
    · simp at h
    · simp at h
      exact Or.inl (by rw [h])
  · simp only at h
    exact rtwl_ok_source cfg env w t hnr h

/-- Helper: every token successfully returned by `get_valid_token` (with no
concurrent cache writer) was read from the entry cache or issued by one of
the upstream call sites. -/
theorem gvt_ok_source (cfg : Settings) (env : TMEnv) (w : World) (t : String)
    (hnr : env.raceWrite = none)
    (h : (get_valid_token cfg env w).1 = Except.ok t) :
    dictGet w.cache "access_token" = some t
    ∨ upTokOf env.upPrimary = some t
    ∨ upTokOf env.upFallback = some t := by
  unfold get_valid_token at h
  cases hw : w.redisAvailable with
  | true =>
    simp only [hw, if_true] at h
    rcases hcp : cached_path cfg env w with ⟨r, w2, ops⟩
    rw [hcp] at h
    cases r with
    | ok t0 =>
      simp at h
      have := cached_path_ok_source cfg env w t0 hnr (by rw [hcp])
      rw [h] at this
      rcases this with hl | hrr
      · exact Or.inl hl
      · exact Or.inr (Or.inl hrr)
    | error e =>
      simp only at h
      rcases hdf : direct_token_refresh cfg env.upFallback with ⟨r2, ops2⟩
      rw [hdf] at h
      simp at h
      exact Or.inr (Or.inr (direct_ok_token cfg env.upFallback t (by rw [hdf, h])))
  | false =>
    simp only [hw, Bool.false_eq_true, if_false] at h
    rcases hdp : direct_token_refresh cfg env.upPrimary with ⟨r, ops⟩
    rw [hdp] at h
    cases r with
    | ok t0 =>
      simp at h
      rw [h] at hdp
      exact Or.inr (Or.inl (direct_ok_token cfg env.upPrimary t (by rw [hdp])))
    | error e =>
      simp only at h
      rcases hdf : direct_token_refresh cfg env.upFallback with ⟨r2, ops2⟩
      rw [hdf] at h
      simp at h
      exact Or.inr (Or.inr (direct_ok_token cfg env.upFallback t (by rw [hdf, h])))

/-- Helper: the world `force_refresh` leaves behind is exactly the one the
inner refresh-and-cache produced. -/
theorem force_refresh_world_state (cfg : Settings) (env : TMEnv) (w : World) :
    (force_refresh cfg env w).2.1 =
      (refresh_and_cache_token cfg env
        (if w.redisAvailable then { w with cache := [] } else w)).2.1 := by
  unfold force_refresh
  cases hb : (refresh_and_cache_token cfg env
      (if w.redisAvailable then { w with cache := [] } else w)).1 <;>
    simp [hb]

theorem force_refresh_world (cfg : Settings) (env : TMEnv) (w : World)
    (hr : w.redisAvailable = true) :
    (force_refresh cfg env w).2.1.redisAvailable = true
    ∧ ∀ v, dictGet (force_refresh cfg env w).2.1.cache "access_token" = some v →
        upTokOf env.upPrimary = some v := by
  have hstate := force_refresh_world_state cfg env w
  rw [if_pos hr] at hstate
  rw [hstate]
  constructor
  · rw [rac_redis]
    exact hr
  · intro v hv
    rcases rac_cache_source cfg env { w with cache := [] } v hv with hl | hrr
    · exact hl
    · simp [dictGet] at hrr

/-- Claim C5 counterexample: in a concrete `force_refresh` run the full
operation trace is delete, lock attempt, refresh, cache write, release —
it contains no cache read at all, so no double-check of the cache happens
between the lock grant and the refresh, contrary to the claimed
acquire-lock → double-check-cache → refresh sequence. -/
theorem c5_force_refresh_counterexample :
    force_refresh { refreshTokenConfigured := true } envForce wOld =
      (Except.ok "NEW",
        { redisAvailable := true,
          cache := [("access_token", "NEW"), ("expires_at", "4600.0"),
            ("scope", ""), ("cached_at", "1000.0")] },
        [MOp.cacheDelete, MOp.lockAttempt true, MOp.metrics "lock_acquired",
          MOp.httpRefresh, MOp.cacheWrite "NEW" 3540,
          MOp.metrics "refresh_success", MOp.metrics "force_refresh", MOp.lockRelease])
    ∧ (force_refresh { refreshTokenConfigured := true } envForce wOld).2.2.count
        MOp.redisRead = 0 := by
  constructor <;> decide

/-- Claim C5 amended: `force_refresh` first deletes any cached record, then
acquires the lock and refreshes-and-caches directly, with no double-check
cache re-read; consequently, provided the upstream never re-issues the
triggering token value, a subsequent `get_valid_token` (with no concurrent
cache writer) never returns that token. -/
theorem c5_force_refresh_amended (cfg : Settings) (env : TMEnv) (w : World) (old : String)
    (hr : w.redisAvailable = true) :
    (∀ t, (refresh_and_cache_token cfg env { w with cache := [] }).1 = Except.ok t →
      force_refresh cfg env w =
        (Except.ok t, (refresh_and_cache_token cfg env { w with cache := [] }).2.1,
          MOp.cacheDelete :: ((acquire_lock_ops env.lock).2 ++
            (refresh_and_cache_token cfg env { w with cache := [] }).2.2 ++
            [MOp.metrics "force_refresh"] ++
            (if (acquire_lock_ops env.lock).1 then [MOp.lockRelease] else []))))
    ∧ (∀ env2 : TMEnv, env2.raceWrite = none →
        (∀ v, upTokOf env.upPrimary = some v → v ≠ old) →
        (∀ v, upTokOf env2.upPrimary = some v → v ≠ old) →
        (∀ v, upTokOf env2.upFallback = some v → v ≠ old) →
        ∀ t2, (get_valid_token cfg env2 (force_refresh cfg env w).2.1).1 = Except.ok t2 →
          t2 ≠ old) := by
  constructor
  · intro t hok
    unfold force_refresh
    simp only [hr, if_true] at hok ⊢
    rcases hb : refresh_and_cache_token cfg env { redisAvailable := true, cache := [] }
      with ⟨r, w2, ops⟩
    rw [hb] at hok
    simp only at hok
    rw [hok]
    simp
  · intro env2 hnr2 hup1 hup2 hup3 t2 hok
    have hw := force_refresh_world cfg env w hr
    have := gvt_ok_source cfg env2 (force_refresh cfg env w).2.1 t2 hnr2 hok
    rcases this with hcache | hupP | hupF
    · exact hup1 t2 (hw.2 t2 hcache)
    · exact hup2 t2 hupP
    · exact hup3 t2 hupF

/-- Witness for C5 amended: the concrete force-refresh run followed by a
fresh read returns the new token, not `OLD`. -/
theorem c5_force_refresh_amended_witness :
    (refresh_and_cache_token { refreshTokenConfigured := true } envForce
      { wOld with cache := [] }).1 = Except.ok "NEW"
    ∧ force_refresh { refreshTokenConfigured := true } envForce wOld =
      (Except.ok "NEW",
        (refresh_and_cache_token { refreshTokenConfigured := true } envForce
          { wOld with cache := [] }).2.1,
        MOp.cacheDelete :: ((acquire_lock_ops envForce.lock).2 ++
          (refresh_and_cache_token { refreshTokenConfigured := true } envForce
            { wOld with cache := [] }).2.2 ++
          [MOp.metrics "force_refresh"] ++
          (if (acquire_lock_ops envForce.lock).1 then [MOp.lockRelease] else []))) :=
  ⟨by decide,
    (c5_force_refresh_amended { refreshTokenConfigured := true } envForce wOld "OLD"
      rfl).1 "NEW" (by decide)⟩

/-- Helper: one upstream exchange of the service client makes at most one
HTTP call. -/
theorem sget_http_le (cfg : Settings) (u : UpstreamResult) :
    (s_get_access_token cfg u).2.count SOp.httpRefresh ≤ 1 := by
  unfold s_get_access_token
  split_ifs with hc
  · cases u with
    | netExc m => simp
    | resp status tok expIn scope =>
      simp only
      split_ifs with hs
      · simp
      · cases tok <;> simp
  · simp

/-- Helper: when configured, one upstream exchange makes exactly one HTTP
call. -/
theorem sget_http_eq (cfg : Settings) (u : UpstreamResult)
    (hc : cfg.refreshTokenConfigured = true) :
    (s_get_access_token cfg u).2.count SOp.httpRefresh = 1 := by
  unfold s_get_access_token
  rw [if_pos hc]
  cases u with
  | netExc m => simp
  | resp status tok expIn scope =>
    simp only
    split_ifs with hs
    · simp
    · cases tok <;> simp

/-- Helper: one `_refresh_client` attempt makes at most one HTTP call. -/
theorem attempt_http_le (cfg : Settings) (e : SEnv) (now : ℚ) (st : SClientState) :
    (refresh_client_attempt cfg e now st).2.2.count SOp.httpRefresh ≤ 1 := by
  unfold refresh_client_attempt
  rcases hs : s_get_access_token cfg e.upstream with ⟨r, ops⟩
  have hle : ops.count SOp.httpRefresh ≤ 1 := by
    have := sget_http_le cfg e.upstream
    rw [hs] at this
    exact this
  cases r with
  | error m => simpa using hle
  | ok tup =>
    rcases tup with ⟨t, ei, sc⟩
    simp only
    cases e.probe with
    | error m => simpa [List.count_append] using hle
    | ok pu =>
      split_ifs with hsc
      · cases hv : validate_token_scopes (sc.getD "") <;>
          simpa [List.count_append] using hle
      · simpa [List.count_append] using hle

/-- Helper: when configured, one `_refresh_client` attempt makes exactly one
HTTP call. -/
theorem attempt_http_eq (cfg : Settings) (e : SEnv) (now : ℚ) (st : SClientState)
    (hc : cfg.refreshTokenConfigured = true) :
    (refresh_client_attempt cfg e now st).2.2.count SOp.httpRefresh = 1 := by
  unfold refresh_client_attempt
  rcases hs : s_get_access_token cfg e.upstream with ⟨r, ops⟩
  have heq : ops.count SOp.httpRefresh = 1 := by
    have := sget_http_eq cfg e.upstream hc
    rw [hs] at this
    exact this
  cases r with
  | error m => simpa using heq
  | ok tup =>
    rcases tup with ⟨t, ei, sc⟩
    simp only
    cases e.probe with
    | error m => simpa [List.count_append] using heq
    | ok pu =>
      split_ifs with hsc
      · cases hv : validate_token_scopes (sc.getD "") <;>
          simpa [List.count_append] using heq
      · simpa [List.count_append] using heq

/-- Helper: the retry loop makes at most `fuel` HTTP calls. -/
theorem go_http_le (cfg : Settings) (env : ℕ → SEnv) (now : ℚ) :
    ∀ (fuel k : ℕ) (st : SClientState),
      (refresh_client_go cfg env now fuel k st).2.2.count SOp.httpRefresh ≤ fuel := by
  intro fuel
  induction fuel with
  | zero => intro k st; simp [refresh_client_go]
  | succ n ih =>
    intro k st
    simp only [refresh_client_go]
    rcases ha : refresh_client_attempt cfg (env k) now st with ⟨r, st1, aops⟩
    have hle : aops.count SOp.httpRefresh ≤ 1 := by
      have := attempt_http_le cfg (env k) now st
      rw [ha] at this
      exact this
    cases r with
    | ok v => simp only; omega
    | error m =>
      split_ifs with hf
      · simp only; omega
      · have hrest := ih (k + 1) st1
        simp only [List.count_append, List.count_cons]
        simp
        omega

/-- Helper: when configured, a retry loop with fuel makes at least one HTTP
call. -/
theorem go_http_ge_one (cfg : Settings) (env : ℕ → SEnv) (now : ℚ)
    (fuel k : ℕ) (st : SClientState) (hc : cfg.refreshTokenConfigured = true)
    (hf : 0 < fuel) :
    1 ≤ (refresh_client_go cfg env now fuel k st).2.2.count SOp.httpRefresh := by
  cases fuel with
  | zero => omega
  | succ n =>
    simp only [refresh_client_go]
    rcases ha : refresh_client_attempt cfg (env k) now st with ⟨r, st1, aops⟩
    have heq : aops.count SOp.httpRefresh = 1 := by
      have := attempt_http_eq cfg (env k) now st hc
      rw [ha] at this
      exact this
    cases r with
    | ok v => simp only; omega
    | error m =>
      split_ifs with hfz
      · simp only; omega
      · simp only [List.count_append, List.count_cons]
        simp
        omega

/-- Helper: one failed, non-final attempt appends its operations, a backoff
sleep of `2 ^ k` seconds, and the rest of the loop. -/
theorem go_succ_error (cfg : Settings) (env : ℕ → SEnv) (now : ℚ) (fuel k : ℕ)
    (st : SClientState) (m : String)
    (h : (refresh_client_attempt cfg (env k) now st).1 = Except.error m)
    (hf : fuel ≠ 0) :
    refresh_client_go cfg env now (fuel + 1) k st =
      ((refresh_client_go cfg env now fuel (k + 1)
          (refresh_client_attempt cfg (env k) now st).2.1).1,
        (refresh_client_go cfg env now fuel (k + 1)
          (refresh_client_attempt cfg (env k) now st).2.1).2.1,
        (refresh_client_attempt cfg (env k) now st).2.2 ++ SOp.sleep (1 * 2 ^ k) ::
          (refresh_client_go cfg env now fuel (k + 1)
            (refresh_client_attempt cfg (env k) now st).2.1).2.2) := by
  simp only [refresh_client_go]
  rcases ha : refresh_client_attempt cfg (env k) now st with ⟨r, st1, aops⟩
  rw [ha] at h
  simp only at h
  rw [h]
  simp [hf]

/-- Claim C4 counterexample: the upstream answers HTTP 400 on the first
refresh attempt; `_refresh_client` treats the resulting error like any
other failure and performs a second refresh request after a 1-second
backoff, so a 400 response does cause a second refresh request rather than
zero retries. -/
theorem c4_http400_counterexample :
    (refresh_client { refreshTokenConfigured := true } env400 1000 sClean).2.2 =
      [SOp.httpRefresh, SOp.sleep 1, SOp.httpRefresh, SOp.probe]
    ∧ (refresh_client { refreshTokenConfigured := true } env400 1000 sClean).2.2.count
        SOp.httpRefresh = 2 := by
  constructor <;> decide

/-- Claim C4 amended: the service-client refresher retries up to 3 attempts
in total with exponential backoff on any failure, including an HTTP 400
error response, which is retried like every other error (the first backoff
sleep is 1 second); the lock-based token manager's `_request_token_refresh`
performs no retries at all (at most one HTTP request per call, whatever the
outcome). -/
theorem c4_retry_policy_amended (cfg : Settings) (env : ℕ → SEnv) (now : ℚ)
    (st : SClientState) :
    ((refresh_client cfg env now st).2.2.count SOp.httpRefresh ≤ 3)
    ∧ (∀ (tok : Option String) (ei : Option ℚ) (sc : Option String),
        cfg.refreshTokenConfigured = true →
        (env 0).upstream = UpstreamResult.resp 400 tok ei sc →
        (refresh_client cfg env now st).2.2 =
          SOp.httpRefresh :: SOp.sleep 1 ::
            (refresh_client_go cfg env now 2 1 st).2.2
        ∧ 2 ≤ (refresh_client cfg env now st).2.2.count SOp.httpRefresh)
    ∧ (∀ u : UpstreamResult, (request_token_refresh cfg u).2.count MOp.httpRefresh ≤ 1) := by
  refine ⟨go_http_le cfg env now 3 0 st, ?_, ?_⟩
  · intro tok ei sc hc hup
    have hstep : refresh_client_attempt cfg (env 0) now st =
        (Except.error ("Failed to refresh access token: " ++ toString (400 : ℕ)), st,
          [SOp.httpRefresh]) := by
      unfold refresh_client_attempt s_get_access_token
      rw [hup, if_pos hc]
      simp
    have hgo := go_succ_error cfg env now 2 0 st
      ("Failed to refresh access token: " ++ toString (400 : ℕ)) (by rw [hstep]) (by omega)
    rw [hstep] at hgo
    have htrace : (refresh_client cfg env now st).2.2 =
        SOp.httpRefresh :: SOp.sleep 1 :: (refresh_client_go cfg env now 2 1 st).2.2 := by
      unfold refresh_client
      rw [show (3 : ℕ) = 2 + 1 from rfl, hgo]
      norm_num
    refine ⟨htrace, ?_⟩
    rw [htrace]
    have hge := go_http_ge_one cfg env now 2 1 st hc (by omega)
    rw [List.count_cons_self, List.count_cons_of_ne (by decide)]
    omega
  · intro u
    unfold request_token_refresh
    split_ifs with hc
    · cases u with
      | netExc m => simp
      | resp status tok2 expIn scope =>
        simp only
        split_ifs with hs
        · simp
        · cases tok2 <;> simp
    · simp

/-- Witness for C4 amended at the concrete 400-then-200 run. -/
theorem c4_retry_policy_amended_witness :
    ({ refreshTokenConfigured := true } : Settings).refreshTokenConfigured = true
    ∧ (env400 0).upstream = UpstreamResult.resp 400 none none none
    ∧ ((refresh_client { refreshTokenConfigured := true } env400 1000 sClean).2.2 =
        SOp.httpRefresh :: SOp.sleep 1 ::
          (refresh_client_go { refreshTokenConfigured := true } env400 1000 2 1 sClean).2.2
      ∧ 2 ≤ (refresh_client { refreshTokenConfigured := true } env400 1000 sClean).2.2.count
          SOp.httpRefresh) :=
  ⟨rfl, rfl,
    (c4_retry_policy_amended { refreshTokenConfigured := true } env400 1000 sClean).2.1
      none none none rfl rfl⟩

/-- Claim C9 counterexample: a refresh whose granted scope set is deficient
raises inside `_refresh_client`'s `try`, is caught by the retry loop, and a
second refresh request is made — the deficiency is retried, not reported as
a non-retryable error. -/
theorem c9_scope_retry_counterexample :
    isErr (validate_token_scopes "user-read-private") = true
    ∧ (refresh_client { refreshTokenConfigured := true } envScopeDef 1000 sClean).2.2.count
        SOp.httpRefresh = 2
    ∧ (refresh_client { refreshTokenConfigured := true } envScopeDef 1000 sClean).1 =
        Except.ok () := by
  refine ⟨by decide, by decide, by decide⟩

/-- Claim C9 amended: after a successful exchange with a non-empty scope
string, the granted scopes are checked to be a superset of the required
set, and a deficiency raises an error — but that error is caught by the
surrounding retry loop and the refresh is retried like any other failure
(up to 3 attempts in total), so it is not non-retryable; an empty or
missing scope string skips validation entirely. -/
theorem c9_scope_validation_amended (s : String) (cfg : Settings) (env : ℕ → SEnv)
    (now : ℚ) (st : SClientState) :
    (s ≠ "" → (validate_token_scopes s = Except.ok () ↔
      ∀ r ∈ REQUIRED_SCOPES, r ∈ splitScopes s))
    ∧ validate_token_scopes "" = Except.ok ()
    ∧ (∀ (t pu m : String) (ei : Option ℚ) (sc : String),
        cfg.refreshTokenConfigured = true →
        (env 0).upstream = UpstreamResult.resp 200 (some t) ei (some sc) →
        (env 0).probe = Except.ok pu →
        sc ≠ "" →
        validate_token_scopes sc = Except.error m →
        2 ≤ (refresh_client cfg env now st).2.2.count SOp.httpRefresh) := by
  refine ⟨?_, rfl, ?_⟩
  · intro hs
    unfold validate_token_scopes
    rw [if_neg hs]
    simp only
    split_ifs with hm
    · simp only [List.filter_eq_nil_iff] at hm
      constructor
      · intro _ r hr
        have := hm r hr
        simpa using this
      · intro _
        rfl
    · constructor
      · intro hcon
        cases hcon
      · intro hall
        exfalso
        apply hm
        rw [List.filter_eq_nil_iff]
        intro r hr
        simpa using hall r hr
  · intro t pu m ei sc hc hup hpr hsc hval
    have hstep : refresh_client_attempt cfg (env 0) now st =
        (Except.error m,
          { hasClient := true, accessToken := some t,
            tokenExpiresAt := some (now + ei.getD 3600) },
          [SOp.httpRefresh, SOp.probe]) := by
      unfold refresh_client_attempt s_get_access_token
      rw [hup, if_pos hc, hpr]
      simp [hsc, hval]
    have hgo := go_succ_error cfg env now 2 0 st m (by rw [hstep]) (by omega)
    rw [hstep] at hgo
    have htrace : (refresh_client cfg env now st).2.2 =
        SOp.httpRefresh :: SOp.probe :: SOp.sleep 1 ::
          (refresh_client_go cfg env now 2 1
            { hasClient := true, accessToken := some t,
              tokenExpiresAt := some (now + ei.getD 3600) }).2.2 := by
      unfold refresh_client
      rw [show (3 : ℕ) = 2 + 1 from rfl, hgo]
      norm_num
    rw [htrace]
    have hge := go_http_ge_one cfg env now 2 1
      { hasClient := true, accessToken := some t,
        tokenExpiresAt := some (now + ei.getD 3600) } hc (by omega)
    rw [List.count_cons_self, List.count_cons_of_ne (by decide),
      List.count_cons_of_ne (by decide)]
    omega

/-- Witness for C9 amended at the concrete deficient-scope run. -/
theorem c9_scope_validation_amended_witness :
    (envScopeDef 0).upstream =
      UpstreamResult.resp 200 (some "T1") (some 3600) (some "user-read-private")
    ∧ isErr (validate_token_scopes "user-read-private") = true
    ∧ 2 ≤ (refresh_client { refreshTokenConfigured := true } envScopeDef 1000 sClean).2.2.count
        SOp.httpRefresh := by
  refine ⟨rfl, by decide, ?_⟩
  rcases hv : validate_token_scopes "user-read-private" with m | u
  · exact (c9_scope_validation_amended "user-read-private" { refreshTokenConfigured := true }
      envScopeDef 1000 sClean).2.2 "T1" "u" m (some 3600) "user-read-private"
      rfl rfl rfl (by decide) hv
  · cases u
    exact absurd hv (by decide)

/-- Claim C8 counterexample: on an authorization-class probe failure,
`get_client_with_retry` clears the locally cached client state and retries
— it performs zero calls to `force_refresh()`, not exactly one per failed
probe as claimed. -/
theorem c8_no_force_refresh_counterexample :
    get_client_with_retry envAuth 2 =
      (Except.ok (), [FOp.getClientCall, FOp.probeCall, FOp.clearState,
        FOp.getClientCall, FOp.probeCall])
    ∧ (get_client_with_retry envAuth 2).2.count FOp.forceRefreshCall = 0
    ∧ (get_client_with_retry envAuth 2).2.count FOp.probeCall = 2 := by
  refine ⟨by decide, by decide, by decide⟩

/-- Helper: the factory loop makes at most `fuel` `get_client` calls. -/
theorem factory_go_calls_le (env : ℕ → FEnv) (maxRetries : ℕ) :
    ∀ (fuel k : ℕ),
      (get_client_with_retry_go env maxRetries fuel k).2.count FOp.getClientCall ≤ fuel := by
  intro fuel
  induction fuel with
  | zero => intro k; simp [get_client_with_retry_go]
  | succ n ih =>
    intro k
    simp only [get_client_with_retry_go]
    cases hgc : (env k).getClient with
    | error m =>
      simp only
      split_ifs <;> simp [List.count_append, List.count_cons, ih (k + 1)]
    | ok u =>
      cases hp : (env k).probe with
      | error m =>
        simp only
        split_ifs <;> simp [List.count_append, List.count_cons, ih (k + 1)]
      | ok v => simp

/-- Helper: the factory loop never calls `force_refresh`. -/
theorem factory_go_no_force (env : ℕ → FEnv) (maxRetries : ℕ) :
    ∀ (fuel k : ℕ),
      (get_client_with_retry_go env maxRetries fuel k).2.count FOp.forceRefreshCall = 0 := by
  intro fuel
  induction fuel with
  | zero => intro k; simp [get_client_with_retry_go]
  | succ n ih =>
    intro k
    simp only [get_client_with_retry_go]
    cases hgc : (env k).getClient with
    | error m =>
      simp only
      split_ifs <;> simp [List.count_append, List.count_cons, ih (k + 1)]
    | ok u =>
      cases hp : (env k).probe with
      | error m =>
        simp only
        split_ifs <;> simp [List.count_append, List.count_cons, ih (k + 1)]
      | ok v => simp

/-- Claim C8 amended: `get_client_with_retry(max_retries)` probes through
the client; on an authorization-class failure (error text containing 401 or
403) it clears the locally cached client and token state — exactly one
clear per failed probe and never a call to `force_refresh()` — and retries
up to `max_retries` more times; a non-authorization error is raised
immediately with no clear and no retry. -/
theorem c8_client_retry_amended (env : ℕ → FEnv) (maxRetries : ℕ) (m : String) :
    ((env 0).getClient = Except.ok () → (env 0).probe = Except.error m →
      auth_error m = false →
      get_client_with_retry env maxRetries =
        (Except.error m, [FOp.getClientCall, FOp.probeCall]))
    ∧ ((env 0).getClient = Except.ok () → (env 0).probe = Except.error m →
      auth_error m = true → 0 < maxRetries →
      get_client_with_retry env maxRetries =
        ((get_client_with_retry_go env maxRetries maxRetries 1).1,
          [FOp.getClientCall, FOp.probeCall, FOp.clearState] ++
            (get_client_with_retry_go env maxRetries maxRetries 1).2))
    ∧ (∀ fuel k, (get_client_with_retry_go env maxRetries fuel k).2.count
        FOp.forceRefreshCall = 0)
    ∧ (get_client_with_retry env maxRetries).2.count FOp.getClientCall ≤ maxRetries + 1 := by
  refine ⟨?_, ?_, factory_go_no_force env maxRetries,
    factory_go_calls_le env maxRetries (maxRetries + 1) 0⟩
  · intro hgc hp hna
    unfold get_client_with_retry
    conv_lhs => rw [get_client_with_retry_go]
    rw [hgc, hp]
    simp [hna]
  · intro hgc hp ha hmr
    unfold get_client_with_retry
    conv_lhs => rw [get_client_with_retry_go]
    rw [hgc, hp]
    simp [ha, hmr]

/-- Witness for C8 amended at the concrete 401-probe run. -/
theorem c8_client_retry_amended_witness :
    (envAuth 0).getClient = Except.ok ()
    ∧ (envAuth 0).probe = Except.error "http status 401"
    ∧ auth_error "http status 401" = true
    ∧ get_client_with_retry envAuth 2 =
      ((get_client_with_retry_go envAuth 2 2 1).1,
        [FOp.getClientCall, FOp.probeCall, FOp.clearState] ++
          (get_client_with_retry_go envAuth 2 2 1).2) :=
  ⟨rfl, rfl, by decide,
    (c8_client_retry_amended envAuth 2 "http status 401").2.1 rfl rfl (by decide)
      (by omega)⟩

